import Mathlib

/-!
Verification development for the particle attractor simulation in
`src/script_attractor_particles_vanilla.js`.

The numeric core of the repository is the function `updateParticles`
(lines 182-253), together with particle creation (`createParticles`,
lines 143-162) and `resetParticles` (lines 290-314).  The JavaScript
code works on floating-point numbers; here it is embedded shallowly at
two levels of fidelity:

* a real-valued model (`AttractorParticles`): every JS number becomes a
  real number, arithmetic is exact.  Lean's convention `x / 0 = 0` means
  this model silently assigns the value `0` to the divisions that
  JavaScript turns into `Infinity`; all theorems about this model that
  depend on a division therefore either carry a non-coincidence
  hypothesis or do not depend on the degenerate case.

* an IEEE-special-value model (`AttractorParticles.Js`): numbers are
  real numbers extended with `inf`, `ninf` and `nan`, and the
  arithmetic operations follow the JavaScript evaluation rules for
  those special values (negative zero is identified with zero; rounding
  is not modelled).  This model is used to settle the behaviour of the
  step at a particle/attractor coincidence, where JavaScript produces
  `Infinity` and then `NaN`.
-/

namespace AttractorParticles

/-- A 3D vector with real coordinates, standing for the triples of
consecutive entries of the JS Float32Arrays and for `THREE.Vector3`. -/
@[ext]
structure Vec3 where
  x : ℝ
  y : ℝ
  z : ℝ

instance : Zero Vec3 := ⟨⟨0, 0, 0⟩⟩

instance : Add Vec3 := ⟨fun a b => ⟨a.x + b.x, a.y + b.y, a.z + b.z⟩⟩

instance : Sub Vec3 := ⟨fun a b => ⟨a.x - b.x, a.y - b.y, a.z - b.z⟩⟩

instance : SMul ℝ Vec3 := ⟨fun k v => ⟨k * v.x, k * v.y, k * v.z⟩⟩

@[simp] theorem Vec3.zero_x : (0 : Vec3).x = 0 := rfl

@[simp] theorem Vec3.zero_y : (0 : Vec3).y = 0 := rfl

@[simp] theorem Vec3.zero_z : (0 : Vec3).z = 0 := rfl

@[simp] theorem Vec3.add_x (a b : Vec3) : (a + b).x = a.x + b.x := rfl

@[simp] theorem Vec3.add_y (a b : Vec3) : (a + b).y = a.y + b.y := rfl

@[simp] theorem Vec3.add_z (a b : Vec3) : (a + b).z = a.z + b.z := rfl

@[simp] theorem Vec3.sub_x (a b : Vec3) : (a - b).x = a.x - b.x := rfl

@[simp] theorem Vec3.sub_y (a b : Vec3) : (a - b).y = a.y - b.y := rfl

@[simp] theorem Vec3.sub_z (a b : Vec3) : (a - b).z = a.z - b.z := rfl

@[simp] theorem Vec3.smul_x (k : ℝ) (v : Vec3) : (k • v).x = k * v.x := rfl

@[simp] theorem Vec3.smul_y (k : ℝ) (v : Vec3) : (k • v).y = k * v.y := rfl

@[simp] theorem Vec3.smul_z (k : ℝ) (v : Vec3) : (k • v).z = k * v.z := rfl

/-- Euclidean norm of a `Vec3`, written exactly as the JS code computes
speeds: the square root of the sum of the squared components. -/
noncomputable def Vec3.norm (v : Vec3) : ℝ :=
  Real.sqrt (v.x * v.x + v.y * v.y + v.z * v.z)

/-- Cross product of two 3D vectors (used to state the spec's spin
term `rotationAxis × (attractorPos − particlePos)`). -/
def Vec3.cross (a b : Vec3) : Vec3 :=
  ⟨a.y * b.z - a.z * b.y, a.z * b.x - a.x * b.z, a.x * b.y - a.y * b.x⟩

/-- One attractor: a position and a rotation axis, as in the arrays
`attractorPositions` / `attractorRotationAxes` of the source. -/
structure Attractor where
  position : Vec3
  rotationAxis : Vec3

/-- The numeric simulation parameters of the `uniforms` object
(lines 55-69 of the source; the colour and scale entries only feed the
shaders and are not part of the simulation state). -/
structure Uniforms where
  attractorMass : ℝ
  particleGlobalMass : ℝ
  timeScale : ℝ
  spinningStrength : ℝ
  maxSpeed : ℝ
  gravityConstant : ℝ
  velocityDamping : ℝ
  boundHalfExtent : ℝ

/-- One particle: one triple of the `positions` and `velocities`
buffers plus one entry of the `particleMasses` buffer. -/
structure Particle where
  position : Vec3
  velocity : Vec3
  mass : ℝ

/-- Truncation toward zero, the rounding JavaScript's `%` operator
applies to the quotient. -/
noncomputable def jsTrunc (x : ℝ) : ℤ :=
  if 0 ≤ x then ⌊x⌋ else ⌈x⌉

/-- The JavaScript remainder operator `a % b` on (finite, nonzero-`b`)
numbers: `a - b * trunc (a / b)`; the result carries the sign of the
dividend `a`. -/
noncomputable def jsRem (a b : ℝ) : ℝ :=
  a - b * (jsTrunc (a / b) : ℝ)

/-- The per-axis "Box loop" of lines 246-248 of the source:
`(c + halfExtent) % (2 * halfExtent) - halfExtent` with the JS `%`. -/
noncomputable def wrapCoord (halfExtent c : ℝ) : ℝ :=
  jsRem (c + halfExtent) (2 * halfExtent) - halfExtent

/-- The box-loop step applied to all three coordinates. -/
noncomputable def wrapVec (halfExtent : ℝ) (v : Vec3) : Vec3 :=
  ⟨wrapCoord halfExtent v.x, wrapCoord halfExtent v.y, wrapCoord halfExtent v.z⟩

/-- The body of the inner attractor loop (lines 195-217 of the source):
given the force accumulated so far, add the gravity contribution and
then the spinning contribution of one attractor.  Lean's `x / 0 = 0`
convention makes both contributions vanish at a particle/attractor
coincidence (`distSq = 0`), where the JavaScript code instead produces
Infinity and then NaN (captured by the Js model below); theorems about
the stepped state therefore carry a `distSqTo` non-coincidence
hypothesis delimiting the domain on which this real-valued model is
faithful. -/
noncomputable def applyAttractor (u : Uniforms) (mass : ℝ) (pos : Vec3)
    (f : Vec3) (a : Attractor) : Vec3 :=
  let dx := a.position.x - pos.x
  let dy := a.position.y - pos.y
  let dz := a.position.z - pos.z
  let distSq := dx * dx + dy * dy + dz * dz
  let dist := Real.sqrt distSq
  let gravityStrength := u.attractorMass * mass * u.gravityConstant / distSq
  let forceMag := gravityStrength / dist
  let fx := f.x + forceMag * dx
  let fy := f.y + forceMag * dy
  let fz := f.z + forceMag * dz
  let spinningStrength := gravityStrength * u.spinningStrength
  let spinX := a.rotationAxis.y * dz - a.rotationAxis.z * dy
  let spinY := a.rotationAxis.z * dx - a.rotationAxis.x * dz
  let spinZ := a.rotationAxis.x * dy - a.rotationAxis.y * dx
  ⟨fx + spinningStrength * spinX, fy + spinningStrength * spinY,
    fz + spinningStrength * spinZ⟩

/-- The net force accumulated for one particle over all attractors
(`fx, fy, fz` of lines 194-217, starting from zero). -/
noncomputable def netForce (u : Uniforms) (mass : ℝ) (pos : Vec3)
    (atts : List Attractor) : Vec3 :=
  atts.foldl (applyAttractor u mass pos) 0

/-- One per-particle step of `updateParticles` (lines 190-248 of the
source): force accumulation, velocity update, speed limit, damping,
position update and box loop, in the source's order. -/
noncomputable def updateParticle (u : Uniforms) (atts : List Attractor)
    (p : Particle) : Particle :=
  let f := netForce u p.mass p.position atts
  let vx := p.velocity.x + f.x * u.timeScale
  let vy := p.velocity.y + f.y * u.timeScale
  let vz := p.velocity.z + f.z * u.timeScale
  let speedSq := vx * vx + vy * vy + vz * vz
  let v2 : Vec3 :=
    if speedSq > u.maxSpeed * u.maxSpeed then
      let speedFactor := u.maxSpeed / Real.sqrt speedSq
      ⟨vx * speedFactor, vy * speedFactor, vz * speedFactor⟩
    else ⟨vx, vy, vz⟩
  let damping := 1 - u.velocityDamping
  let v3 : Vec3 := ⟨v2.x * damping, v2.y * damping, v2.z * damping⟩
  let px := p.position.x + v3.x * u.timeScale
  let py := p.position.y + v3.y * u.timeScale
  let pz := p.position.z + v3.z * u.timeScale
  let halfExtent := u.boundHalfExtent
  ⟨⟨wrapCoord halfExtent px, wrapCoord halfExtent py, wrapCoord halfExtent pz⟩,
    v3, p.mass⟩

/-- The whole `updateParticles` pass: every particle is updated
independently with the same uniforms and attractors. -/
noncomputable def updateParticles (u : Uniforms) (atts : List Attractor)
    (ps : List Particle) : List Particle :=
  ps.map (updateParticle u atts)

/-- The six `Math.random()` draws consumed for one particle, in source
order: three position draws, the `phi` draw, the `theta` draw and the
mass draw. -/
structure Draws where
  r1 : ℝ
  r2 : ℝ
  r3 : ℝ
  r4 : ℝ
  r5 : ℝ
  r6 : ℝ

/-- The per-particle body of `createParticles` (lines 148-162 of the
source), with the random draws made explicit. -/
noncomputable def createParticle (particleGlobalMass : ℝ) (d : Draws) : Particle :=
  let phi := d.r4 * Real.pi * 2
  let theta := d.r5 * Real.pi
  let r : ℝ := 0.05
  ⟨⟨(d.r1 - 0.5) * 5, (d.r2 - 0.5) * 0.2, (d.r3 - 0.5) * 5⟩,
    ⟨r * Real.sin phi * Real.sin theta, r * Real.cos phi,
      r * Real.sin phi * Real.cos theta⟩,
    (d.r6 * 0.75 + 0.25) * particleGlobalMass⟩

/-- The per-particle body of `resetParticles` (lines 295-309 of the
source), with the random draws made explicit. -/
noncomputable def resetParticle (particleGlobalMass : ℝ) (d : Draws) : Particle :=
  let phi := d.r4 * Real.pi * 2
  let theta := d.r5 * Real.pi
  let r : ℝ := 0.05
  ⟨⟨(d.r1 - 0.5) * 5, (d.r2 - 0.5) * 0.2, (d.r3 - 0.5) * 5⟩,
    ⟨r * Real.sin phi * Real.sin theta, r * Real.cos phi,
      r * Real.sin phi * Real.cos theta⟩,
    (d.r6 * 0.75 + 0.25) * particleGlobalMass⟩

/-- The speed-limit stage exactly as the code performs it (lines
224-231): compare squared speed against `maxSpeed * maxSpeed` and
rescale by `maxSpeed / sqrt speedSq`. -/
noncomputable def codeClamp (maxSpeed : ℝ) (v : Vec3) : Vec3 :=
  if v.x * v.x + v.y * v.y + v.z * v.z > maxSpeed * maxSpeed then
    ⟨v.x * (maxSpeed / Real.sqrt (v.x * v.x + v.y * v.y + v.z * v.z)),
      v.y * (maxSpeed / Real.sqrt (v.x * v.x + v.y * v.y + v.z * v.z)),
      v.z * (maxSpeed / Real.sqrt (v.x * v.x + v.y * v.y + v.z * v.z))⟩
  else v

/-- Modelled from the spec: "Clamp speed: if `|velocity| > maxSpeed`,
rescale velocity to exactly `maxSpeed` (direction preserved)." -/
noncomputable def clampSpeed (maxSpeed : ℝ) (v : Vec3) : Vec3 :=
  if maxSpeed < Vec3.norm v then (maxSpeed / Vec3.norm v) • v else v

/-- Modelled from the spec: "Apply damping:
`velocity *= (1 − velocityDamping)`", a multiplicative decay with no
`dt_scale` factor. -/
def dampVelocity (velocityDamping : ℝ) (v : Vec3) : Vec3 :=
  (1 - velocityDamping) • v

/-- Modelled from the spec's force formula: the gravity term
`(g / dist) · (attractorPos − particlePos)` plus the spin term
`(g · spinningStrength) · (rotationAxis × (attractorPos − particlePos))`
with `g = attractorMass · particleMass · gravityConstant / distSq`. -/
noncomputable def specAttractorForce (u : Uniforms) (particleMass : ℝ)
    (particlePos : Vec3) (a : Attractor) : Vec3 :=
  let d := a.position - particlePos
  let distSq := d.x * d.x + d.y * d.y + d.z * d.z
  let dist := Real.sqrt distSq
  let g := u.attractorMass * particleMass * u.gravityConstant / distSq
  (g / dist) • d + (g * u.spinningStrength) • Vec3.cross a.rotationAxis d

namespace Js

/-- A JavaScript number as far as the simulation step exercises it: a
finite value (an exact real; rounding is not modelled), one of the two
infinities, or `NaN`.  Negative zero is identified with zero. -/
inductive JsNum where
  | num (val : ℝ)
  | inf
  | ninf
  | nan

namespace JsNum

/-- JavaScript addition on `JsNum`. -/
noncomputable def add : JsNum → JsNum → JsNum
  | nan, _ => nan
  | _, nan => nan
  | inf, ninf => nan
  | ninf, inf => nan
  | inf, _ => inf
  | _, inf => inf
  | ninf, _ => ninf
  | _, ninf => ninf
  | num a, num b => num (a + b)

/-- JavaScript subtraction on `JsNum`. -/
noncomputable def sub : JsNum → JsNum → JsNum
  | nan, _ => nan
  | _, nan => nan
  | inf, inf => nan
  | ninf, ninf => nan
  | inf, _ => inf
  | ninf, _ => ninf
  | _, inf => ninf
  | _, ninf => inf
  | num a, num b => num (a - b)

/-- JavaScript multiplication on `JsNum`; an infinity times zero is
`NaN`. -/
noncomputable def mul : JsNum → JsNum → JsNum
  | nan, _ => nan
  | _, nan => nan
  | inf, inf => inf
  | inf, ninf => ninf
  | ninf, inf => ninf
  | ninf, ninf => inf
  | inf, num b => if b = 0 then nan else if 0 < b then inf else ninf
  | num a, inf => if a = 0 then nan else if 0 < a then inf else ninf
  | ninf, num b => if b = 0 then nan else if 0 < b then ninf else inf
  | num a, ninf => if a = 0 then nan else if 0 < a then ninf else inf
  | num a, num b => num (a * b)

/-- JavaScript division on `JsNum`; a nonzero finite value divided by
zero is a signed infinity, `0 / 0` is `NaN`, and an infinity divided by
a finite value stays an infinity (negative zero is not modelled, so the
divisor's sign is read off the real value). -/
noncomputable def div : JsNum → JsNum → JsNum
  | nan, _ => nan
  | _, nan => nan
  | inf, inf => nan
  | inf, ninf => nan
  | ninf, inf => nan
  | ninf, ninf => nan
  | inf, num b => if 0 ≤ b then inf else ninf
  | ninf, num b => if 0 ≤ b then ninf else inf
  | num _, inf => num 0
  | num _, ninf => num 0
  | num a, num b =>
      if b = 0 then (if a = 0 then nan else if 0 < a then inf else ninf)
      else num (a / b)

/-- JavaScript `Math.sqrt` on `JsNum`. -/
noncomputable def sqrt : JsNum → JsNum
  | nan => nan
  | inf => inf
  | ninf => nan
  | num a => if a < 0 then nan else num (Real.sqrt a)

/-- JavaScript `>` on `JsNum`: any comparison with `NaN` is false. -/
noncomputable def gtb : JsNum → JsNum → Bool
  | nan, _ => false
  | _, nan => false
  | inf, inf => false
  | inf, _ => true
  | ninf, _ => false
  | num _, inf => false
  | num _, ninf => true
  | num a, num b => decide (b < a)

/-- JavaScript `%` on `JsNum`: `NaN` or an infinite dividend gives
`NaN`, a zero divisor gives `NaN`, an infinite divisor returns the
dividend. -/
noncomputable def rem : JsNum → JsNum → JsNum
  | nan, _ => nan
  | _, nan => nan
  | inf, _ => nan
  | ninf, _ => nan
  | num a, inf => num a
  | num a, ninf => num a
  | num a, num b => if b = 0 then nan else num (jsRem a b)

/-- JavaScript `<=` on `JsNum`: any comparison with `NaN` is false. -/
noncomputable def leb : JsNum → JsNum → Bool
  | nan, _ => false
  | _, nan => false
  | ninf, _ => true
  | _, ninf => false
  | inf, inf => true
  | inf, num _ => false
  | num _, inf => true
  | num a, num b => decide (a ≤ b)

end JsNum

/-- A 3D vector of JavaScript numbers. -/
structure Vec3J where
  x : JsNum
  y : JsNum
  z : JsNum

/-- An attractor with JavaScript-number coordinates. -/
structure AttractorJ where
  position : Vec3J
  rotationAxis : Vec3J

/-- The simulation parameters as JavaScript numbers. -/
structure UniformsJ where
  attractorMass : JsNum
  particleGlobalMass : JsNum
  timeScale : JsNum
  spinningStrength : JsNum
  maxSpeed : JsNum
  gravityConstant : JsNum
  velocityDamping : JsNum
  boundHalfExtent : JsNum

/-- A particle with JavaScript-number coordinates. -/
structure ParticleJ where
  position : Vec3J
  velocity : Vec3J
  mass : JsNum

open JsNum

/-- The magnitude of a vector of JavaScript numbers, computed as the
code computes speeds: the square root of the sum of the squared
components. -/
noncomputable def jsNorm (v : Vec3J) : JsNum :=
  JsNum.sqrt (JsNum.add (JsNum.add (JsNum.mul v.x v.x) (JsNum.mul v.y v.y))
    (JsNum.mul v.z v.z))

/-- The inner attractor loop body (lines 195-217 of the source) with
JavaScript number semantics. -/
noncomputable def jsApplyAttractor (u : UniformsJ) (mass : JsNum) (pos : Vec3J)
    (f : Vec3J) (a : AttractorJ) : Vec3J :=
  let dx := sub a.position.x pos.x
  let dy := sub a.position.y pos.y
  let dz := sub a.position.z pos.z
  let distSq := add (add (mul dx dx) (mul dy dy)) (mul dz dz)
  let dist := sqrt distSq
  let gravityStrength := div (mul (mul u.attractorMass mass) u.gravityConstant) distSq
  let forceMag := div gravityStrength dist
  let fx := add f.x (mul forceMag dx)
  let fy := add f.y (mul forceMag dy)
  let fz := add f.z (mul forceMag dz)
  let spinningStrength := mul gravityStrength u.spinningStrength
  let spinX := sub (mul a.rotationAxis.y dz) (mul a.rotationAxis.z dy)
  let spinY := sub (mul a.rotationAxis.z dx) (mul a.rotationAxis.x dz)
  let spinZ := sub (mul a.rotationAxis.x dy) (mul a.rotationAxis.y dx)
  ⟨add fx (mul spinningStrength spinX), add fy (mul spinningStrength spinY),
    add fz (mul spinningStrength spinZ)⟩

/-- One per-particle step of `updateParticles` (lines 190-248 of the
source) with JavaScript number semantics. -/
noncomputable def jsUpdateParticle (u : UniformsJ) (atts : List AttractorJ)
    (p : ParticleJ) : ParticleJ :=
  let f := atts.foldl (jsApplyAttractor u p.mass p.position) ⟨num 0, num 0, num 0⟩
  let vx := add p.velocity.x (mul f.x u.timeScale)
  let vy := add p.velocity.y (mul f.y u.timeScale)
  let vz := add p.velocity.z (mul f.z u.timeScale)
  let speedSq := add (add (mul vx vx) (mul vy vy)) (mul vz vz)
  let v2 : Vec3J :=
    if gtb speedSq (mul u.maxSpeed u.maxSpeed) then
      let speedFactor := div u.maxSpeed (sqrt speedSq)
      ⟨mul vx speedFactor, mul vy speedFactor, mul vz speedFactor⟩
    else ⟨vx, vy, vz⟩
  let damping := sub (num 1) u.velocityDamping
  let v3 : Vec3J := ⟨mul v2.x damping, mul v2.y damping, mul v2.z damping⟩
  let px := add p.position.x (mul v3.x u.timeScale)
  let py := add p.position.y (mul v3.y u.timeScale)
  let pz := add p.position.z (mul v3.z u.timeScale)
  let halfExtent := u.boundHalfExtent
  ⟨⟨sub (rem (add px halfExtent) (mul (num 2) halfExtent)) halfExtent,
      sub (rem (add py halfExtent) (mul (num 2) halfExtent)) halfExtent,
      sub (rem (add pz halfExtent) (mul (num 2) halfExtent)) halfExtent⟩,
    v3, p.mass⟩

end Js

theorem Vec3.norm_nonneg (v : Vec3) : 0 ≤ v.norm :=
  Real.sqrt_nonneg _

theorem Vec3.norm_smul (k : ℝ) (v : Vec3) : (k • v).norm = |k| * v.norm := by
  unfold Vec3.norm
  simp only [smul_x, smul_y, smul_z]
  have h : k * v.x * (k * v.x) + k * v.y * (k * v.y) + k * v.z * (k * v.z)
      = k ^ 2 * (v.x * v.x + v.y * v.y + v.z * v.z) := by ring
  rw [h, Real.sqrt_mul (sq_nonneg k), Real.sqrt_sq_eq_abs]

theorem netForce_nil (u : Uniforms) (mass : ℝ) (pos : Vec3) :
    netForce u mass pos [] = 0 := rfl

theorem updateParticle_mass (u : Uniforms) (atts : List Attractor) (p : Particle) :
    (updateParticle u atts p).mass = p.mass := rfl

theorem updateParticle_velocity (u : Uniforms) (atts : List Attractor) (p : Particle) :
    (updateParticle u atts p).velocity
      = (1 - u.velocityDamping) •
          codeClamp u.maxSpeed
            (p.velocity + u.timeScale • netForce u p.mass p.position atts) := by
  have harg : p.velocity + u.timeScale • netForce u p.mass p.position atts
      = ⟨p.velocity.x + (netForce u p.mass p.position atts).x * u.timeScale,
          p.velocity.y + (netForce u p.mass p.position atts).y * u.timeScale,
          p.velocity.z + (netForce u p.mass p.position atts).z * u.timeScale⟩ := by
    ext <;> simp <;> ring
  rw [harg]
  simp only [updateParticle, codeClamp]
  split_ifs with h <;> ext <;> simp <;> ring

theorem updateParticle_position (u : Uniforms) (atts : List Attractor) (p : Particle) :
    (updateParticle u atts p).position
      = wrapVec u.boundHalfExtent
          (p.position + u.timeScale • (updateParticle u atts p).velocity) := by
  simp only [updateParticle, wrapVec]
  ext <;> simp <;> congr 1 <;> ring

theorem norm_codeClamp_le (ms : ℝ) (hms : 0 ≤ ms) (v : Vec3) :
    (codeClamp ms v).norm ≤ ms := by
  unfold codeClamp
  split_ifs with h
  · have hs : 0 < v.x * v.x + v.y * v.y + v.z * v.z :=
      lt_of_le_of_lt (mul_self_nonneg ms) h
    have hmk : (⟨v.x * (ms / Real.sqrt (v.x * v.x + v.y * v.y + v.z * v.z)),
        v.y * (ms / Real.sqrt (v.x * v.x + v.y * v.y + v.z * v.z)),
        v.z * (ms / Real.sqrt (v.x * v.x + v.y * v.y + v.z * v.z))⟩ : Vec3)
        = (ms / Real.sqrt (v.x * v.x + v.y * v.y + v.z * v.z)) • v := by
      ext <;> simp <;> ring
    rw [hmk, Vec3.norm_smul]
    have hsqrt : 0 < Real.sqrt (v.x * v.x + v.y * v.y + v.z * v.z) :=
      Real.sqrt_pos.mpr hs
    have habs : |ms / Real.sqrt (v.x * v.x + v.y * v.y + v.z * v.z)|
        = ms / Real.sqrt (v.x * v.x + v.y * v.y + v.z * v.z) :=
      abs_of_nonneg (div_nonneg hms hsqrt.le)
    rw [habs]
    unfold Vec3.norm
    rw [div_mul_cancel₀ _ (ne_of_gt hsqrt)]
  · push_neg at h
    unfold Vec3.norm
    calc Real.sqrt (v.x * v.x + v.y * v.y + v.z * v.z)
        ≤ Real.sqrt (ms * ms) := Real.sqrt_le_sqrt h
      _ = ms := by rw [← sq, Real.sqrt_sq hms]

/-- The squared distance the inner loop computes between a particle
position and an attractor, in the code's exact expression shape.  The
real-valued model is faithful to the JavaScript code exactly on states
where this is nonzero for every attractor (see the Js bridge theorem);
at a coincidence the code produces Infinity and NaN instead. -/
def distSqTo (pos : Vec3) (a : Attractor) : ℝ :=
  (a.position.x - pos.x) * (a.position.x - pos.x)
    + (a.position.y - pos.y) * (a.position.y - pos.y)
    + (a.position.z - pos.z) * (a.position.z - pos.z)

theorem distSqTo_nonneg (pos : Vec3) (a : Attractor) : 0 ≤ distSqTo pos a := by
  unfold distSqTo
  have h1 := mul_self_nonneg (a.position.x - pos.x)
  have h2 := mul_self_nonneg (a.position.y - pos.y)
  have h3 := mul_self_nonneg (a.position.z - pos.z)
  linarith

/-- Claim C3, amended: for every particle whose position does not
coincide with any attractor's position, and every step with
`maxSpeed ≥ 0` and `velocityDamping ∈ [0, 1]`, after the step returns
the particle's velocity magnitude is at most `maxSpeed`.  (As literally
stated, over all particles, the claim is false of the program: at a
coincident particle the missing `distSq` guard floods the velocity
with NaN, and the JavaScript comparison of the magnitude against
`maxSpeed` is false; the non-coincidence hypothesis is exactly the
domain on which the real-valued model refines the JavaScript step.) -/
theorem speed_bound (u : Uniforms) (atts : List Attractor) (p : Particle)
    (hms : 0 ≤ u.maxSpeed) (hd0 : 0 ≤ u.velocityDamping)
    (hd1 : u.velocityDamping ≤ 1)
    (hsep : ∀ a ∈ atts, distSqTo p.position a ≠ 0) :
    Vec3.norm (updateParticle u atts p).velocity ≤ u.maxSpeed := by
  rw [updateParticle_velocity, Vec3.norm_smul]
  have h1 : |1 - u.velocityDamping| ≤ 1 := abs_le.mpr ⟨by linarith, by linarith⟩
  have h2 := norm_codeClamp_le u.maxSpeed hms
    (p.velocity + u.timeScale • netForce u p.mass p.position atts)
  calc |1 - u.velocityDamping| *
        Vec3.norm (codeClamp u.maxSpeed
          (p.velocity + u.timeScale • netForce u p.mass p.position atts))
      ≤ 1 * u.maxSpeed := by
        apply mul_le_mul h1 h2 (Vec3.norm_nonneg _) zero_le_one
    _ = u.maxSpeed := one_mul _

theorem speed_bound_witness :
    ((0 : ℝ) ≤ 2 ∧ (0 : ℝ) ≤ 1 / 2 ∧ (1 : ℝ) / 2 ≤ 1
        ∧ (∀ a ∈ [(⟨⟨0, 0, 0⟩, ⟨0, 1, 0⟩⟩ : Attractor)],
            distSqTo (⟨2, 0, 0⟩ : Vec3) a ≠ 0)) ∧
      Vec3.norm (updateParticle ⟨1, 1, 1, 4, 2, 1, 1 / 2, 8⟩
        [⟨⟨0, 0, 0⟩, ⟨0, 1, 0⟩⟩] ⟨⟨2, 0, 0⟩, ⟨1, 0, 0⟩, 1⟩).velocity ≤ (2 : ℝ) :=
  ⟨⟨by norm_num, by norm_num, by norm_num, by
      intro a ha
      simp only [List.mem_singleton] at ha
      subst ha
      norm_num [distSqTo]⟩,
    speed_bound ⟨1, 1, 1, 4, 2, 1, 1 / 2, 8⟩ [⟨⟨0, 0, 0⟩, ⟨0, 1, 0⟩⟩]
      ⟨⟨2, 0, 0⟩, ⟨1, 0, 0⟩, 1⟩ (by norm_num) (by norm_num) (by norm_num)
      (by
        intro a ha
        simp only [List.mem_singleton] at ha
        subst ha
        norm_num [distSqTo])⟩

/-- Claim C10, amended: for every particle whose position does not
coincide with any attractor's position, and every step with
`maxSpeed ≥ 0` and `velocityDamping ∈ [0, 1]`, after the step returns
the particle's velocity magnitude is at most
`(1 − velocityDamping) · maxSpeed`, because the multiplicative damping
is applied after the speed clamp within the same tick.  (As literally
stated the claim is false of the program at a coincident particle,
where the velocity ends as NaN; the non-coincidence hypothesis is the
domain on which the real-valued model refines the JavaScript step.) -/
theorem damped_speed_bound (u : Uniforms) (atts : List Attractor) (p : Particle)
    (hms : 0 ≤ u.maxSpeed) (hd0 : 0 ≤ u.velocityDamping)
    (hd1 : u.velocityDamping ≤ 1)
    (hsep : ∀ a ∈ atts, distSqTo p.position a ≠ 0) :
    Vec3.norm (updateParticle u atts p).velocity
      ≤ (1 - u.velocityDamping) * u.maxSpeed := by
  rw [updateParticle_velocity, Vec3.norm_smul]
  have h1 : |1 - u.velocityDamping| = 1 - u.velocityDamping :=
    abs_of_nonneg (by linarith)
  rw [h1]
  exact mul_le_mul_of_nonneg_left
    (norm_codeClamp_le u.maxSpeed hms _) (by linarith)

theorem damped_speed_bound_witness :
    ((0 : ℝ) ≤ 2 ∧ (0 : ℝ) ≤ 1 / 2 ∧ (1 : ℝ) / 2 ≤ 1
        ∧ (∀ a ∈ [(⟨⟨0, 0, 0⟩, ⟨0, 1, 0⟩⟩ : Attractor)],
            distSqTo (⟨2, 0, 0⟩ : Vec3) a ≠ 0)) ∧
      Vec3.norm (updateParticle ⟨1, 1, 1, 4, 2, 1, 1 / 2, 8⟩
        [⟨⟨0, 0, 0⟩, ⟨0, 1, 0⟩⟩] ⟨⟨2, 0, 0⟩, ⟨0, 1, 0⟩, 1⟩).velocity
        ≤ (1 - 1 / 2) * (2 : ℝ) :=
  ⟨⟨by norm_num, by norm_num, by norm_num, by
      intro a ha
      simp only [List.mem_singleton] at ha
      subst ha
      norm_num [distSqTo]⟩,
    damped_speed_bound ⟨1, 1, 1, 4, 2, 1, 1 / 2, 8⟩ [⟨⟨0, 0, 0⟩, ⟨0, 1, 0⟩⟩]
      ⟨⟨2, 0, 0⟩, ⟨0, 1, 0⟩, 1⟩ (by norm_num) (by norm_num) (by norm_num)
      (by
        intro a ha
        simp only [List.mem_singleton] at ha
        subst ha
        norm_num [distSqTo])⟩

/-- Claim C9: for every particle and every step, the step leaves the
mass buffer unchanged: `updateParticles` writes only positions and
velocities. -/
theorem step_preserves_mass (u : Uniforms) (atts : List Attractor)
    (ps : List Particle) :
    (updateParticles u atts ps).map Particle.mass = ps.map Particle.mass := by
  unfold updateParticles
  rw [List.map_map]
  rfl

/-- Sum of a list of force vectors. -/
def sumForces (l : List Vec3) : Vec3 :=
  l.foldr (fun a b => a + b) 0

@[simp] theorem sumForces_nil : sumForces [] = 0 := rfl

@[simp] theorem sumForces_cons (a : Vec3) (l : List Vec3) :
    sumForces (a :: l) = a + sumForces l := rfl

theorem Vec3.add_zero' (v : Vec3) : v + 0 = v := by
  ext <;> simp

theorem Vec3.add_assoc' (a b c : Vec3) : a + b + c = a + (b + c) := by
  ext <;> simp <;> ring

theorem applyAttractor_eq_add_spec (u : Uniforms) (mass : ℝ) (pos : Vec3)
    (f : Vec3) (a : Attractor) :
    applyAttractor u mass pos f a = f + specAttractorForce u mass pos a := by
  simp only [applyAttractor, specAttractorForce, Vec3.cross]
  ext <;> simp <;> ring

theorem foldl_applyAttractor_eq (u : Uniforms) (mass : ℝ) (pos : Vec3)
    (atts : List Attractor) :
    ∀ acc : Vec3,
      atts.foldl (applyAttractor u mass pos) acc
        = acc + sumForces (atts.map (specAttractorForce u mass pos)) := by
  induction atts with
  | nil => intro acc; simp [Vec3.add_zero']
  | cons a l ih =>
      intro acc
      simp only [List.foldl_cons, List.map_cons, sumForces_cons]
      rw [ih (applyAttractor u mass pos acc a), applyAttractor_eq_add_spec,
        Vec3.add_assoc']

/-- Claim C4: for every particle whose position is distinct from every
attractor's position, the net force accumulated in a step equals the
sum over attractors of the spec's gravity term plus spin term. -/
theorem net_force_formula (u : Uniforms) (mass : ℝ) (pos : Vec3)
    (atts : List Attractor) (hsep : ∀ a ∈ atts, a.position ≠ pos) :
    netForce u mass pos atts
      = sumForces (atts.map (specAttractorForce u mass pos)) := by
  unfold netForce
  rw [foldl_applyAttractor_eq]
  ext <;> simp

theorem net_force_formula_witness :
    (∀ a ∈ [(⟨⟨0, 0, 0⟩, ⟨0, 1, 0⟩⟩ : Attractor)], a.position ≠ (⟨2, 0, 0⟩ : Vec3)) ∧
      netForce ⟨1, 1, 1, 4, 2, 1, 1 / 2, 8⟩ 1 ⟨2, 0, 0⟩ [⟨⟨0, 0, 0⟩, ⟨0, 1, 0⟩⟩]
        = sumForces ([(⟨⟨0, 0, 0⟩, ⟨0, 1, 0⟩⟩ : Attractor)].map
            (specAttractorForce ⟨1, 1, 1, 4, 2, 1, 1 / 2, 8⟩ 1 ⟨2, 0, 0⟩)) :=
  ⟨by
      intro a ha
      simp only [List.mem_singleton] at ha
      subst ha
      intro h
      have hx := congrArg Vec3.x h
      norm_num at hx,
    net_force_formula ⟨1, 1, 1, 4, 2, 1, 1 / 2, 8⟩ 1 ⟨2, 0, 0⟩
      [⟨⟨0, 0, 0⟩, ⟨0, 1, 0⟩⟩]
      (by
        intro a ha
        simp only [List.mem_singleton] at ha
        subst ha
        intro h
        have hx := congrArg Vec3.x h
        norm_num at hx)⟩

theorem codeClamp_eq_clampSpeed (ms : ℝ) (hms : 0 ≤ ms) (v : Vec3) :
    codeClamp ms v = clampSpeed ms v := by
  have hcond : (v.x * v.x + v.y * v.y + v.z * v.z > ms * ms)
      ↔ ms < Real.sqrt (v.x * v.x + v.y * v.y + v.z * v.z) := by
    rw [Real.lt_sqrt hms, sq]
  unfold codeClamp clampSpeed Vec3.norm
  by_cases h : ms < Real.sqrt (v.x * v.x + v.y * v.y + v.z * v.z)
  · rw [if_pos (hcond.mpr h), if_pos h]
    ext <;> simp <;> ring
  · rw [if_neg (fun hc => h (hcond.mp hc)), if_neg h]

/-- Claim C5: within one step the updates are applied in this order per
particle: velocity += force · dt_scale; then the speed clamp rescales a
too-fast velocity to magnitude exactly `maxSpeed`; then the velocity is
multiplied by `(1 − velocityDamping)` with no `dt_scale` factor; then
position += velocity · dt_scale (followed by the box loop). -/
theorem step_stage_order (u : Uniforms) (atts : List Attractor) (p : Particle)
    (hms : 0 ≤ u.maxSpeed) :
    (updateParticle u atts p).velocity
        = dampVelocity u.velocityDamping
            (clampSpeed u.maxSpeed
              (p.velocity + u.timeScale • netForce u p.mass p.position atts))
      ∧ (updateParticle u atts p).position
          = wrapVec u.boundHalfExtent
              (p.position + u.timeScale • (updateParticle u atts p).velocity)
      ∧ (u.maxSpeed < Vec3.norm
            (p.velocity + u.timeScale • netForce u p.mass p.position atts) →
          Vec3.norm (clampSpeed u.maxSpeed
              (p.velocity + u.timeScale • netForce u p.mass p.position atts))
            = u.maxSpeed) := by
  refine ⟨?_, updateParticle_position u atts p, ?_⟩
  · rw [updateParticle_velocity, codeClamp_eq_clampSpeed _ hms]
    rfl
  · intro hfast
    rw [← codeClamp_eq_clampSpeed _ hms]
    set w := p.velocity + u.timeScale • netForce u p.mass p.position atts with hw
    have hcond : w.x * w.x + w.y * w.y + w.z * w.z > u.maxSpeed * u.maxSpeed := by
      have := (Real.lt_sqrt hms).mp hfast
      rw [sq] at this
      exact this
    unfold codeClamp
    rw [if_pos hcond]
    have hs : 0 < w.x * w.x + w.y * w.y + w.z * w.z :=
      lt_of_le_of_lt (mul_self_nonneg u.maxSpeed) hcond
    have hsqrt : 0 < Real.sqrt (w.x * w.x + w.y * w.y + w.z * w.z) :=
      Real.sqrt_pos.mpr hs
    have hmk : (⟨w.x * (u.maxSpeed / Real.sqrt (w.x * w.x + w.y * w.y + w.z * w.z)),
        w.y * (u.maxSpeed / Real.sqrt (w.x * w.x + w.y * w.y + w.z * w.z)),
        w.z * (u.maxSpeed / Real.sqrt (w.x * w.x + w.y * w.y + w.z * w.z))⟩ : Vec3)
        = (u.maxSpeed / Real.sqrt (w.x * w.x + w.y * w.y + w.z * w.z)) • w := by
      ext <;> simp <;> ring
    rw [hmk, Vec3.norm_smul,
      abs_of_nonneg (div_nonneg hms hsqrt.le)]
    unfold Vec3.norm
    rw [div_mul_cancel₀ _ (ne_of_gt hsqrt)]

theorem step_stage_order_witness :
    (0 : ℝ) ≤ 2 ∧
      ((updateParticle ⟨1, 1, 1, 4, 2, 1, 1 / 2, 8⟩ []
            ⟨⟨1, 0, 0⟩, ⟨0, 0, 1⟩, 1⟩).velocity
          = dampVelocity (1 / 2)
              (clampSpeed 2 ((⟨0, 0, 1⟩ : Vec3) + (1 : ℝ) •
                netForce ⟨1, 1, 1, 4, 2, 1, 1 / 2, 8⟩ 1 ⟨1, 0, 0⟩ []))
        ∧ (updateParticle ⟨1, 1, 1, 4, 2, 1, 1 / 2, 8⟩ []
              ⟨⟨1, 0, 0⟩, ⟨0, 0, 1⟩, 1⟩).position
            = wrapVec 8 ((⟨1, 0, 0⟩ : Vec3) + (1 : ℝ) •
                (updateParticle ⟨1, 1, 1, 4, 2, 1, 1 / 2, 8⟩ []
                  ⟨⟨1, 0, 0⟩, ⟨0, 0, 1⟩, 1⟩).velocity)
        ∧ ((2 : ℝ) < Vec3.norm ((⟨0, 0, 1⟩ : Vec3) + (1 : ℝ) •
              netForce ⟨1, 1, 1, 4, 2, 1, 1 / 2, 8⟩ 1 ⟨1, 0, 0⟩ []) →
            Vec3.norm (clampSpeed 2 ((⟨0, 0, 1⟩ : Vec3) + (1 : ℝ) •
                netForce ⟨1, 1, 1, 4, 2, 1, 1 / 2, 8⟩ 1 ⟨1, 0, 0⟩ [])) = 2)) :=
  ⟨by norm_num,
    step_stage_order ⟨1, 1, 1, 4, 2, 1, 1 / 2, 8⟩ [] ⟨⟨1, 0, 0⟩, ⟨0, 0, 1⟩, 1⟩
      (by norm_num)⟩

theorem netForce_gravity_zero (u : Uniforms) (mass : ℝ) (pos : Vec3)
    (atts : List Attractor) (hG : u.gravityConstant = 0) :
    netForce u mass pos atts = 0 := by
  unfold netForce
  have happ : ∀ (f : Vec3) (a : Attractor), applyAttractor u mass pos f a = f := by
    intro f a
    simp only [applyAttractor, hG]
    ext <;> simp
  have : ∀ (l : List Attractor) (acc : Vec3),
      l.foldl (applyAttractor u mass pos) acc = acc := by
    intro l
    induction l with
    | nil => intro acc; rfl
    | cons a t ih => intro acc; rw [List.foldl_cons, happ acc a]; exact ih acc
  exact this atts 0

/-- Claim C7, amended: with `gravityConstant = 0`, for every particle
whose position does not coincide with any attractor's position, one
step is independent of the attractor configuration and reduces to the
speed clamp, the multiplicative velocity decay `(1 − velocityDamping)`,
the translation `position += velocity · dt_scale` and the box-loop
wrap.  (As literally stated the claim is false of the program: at a
coincident particle the code computes `0 / 0 = NaN` even with zero
gravity, so the step does depend on the attractor configuration there;
the non-coincidence hypothesis is the domain on which the real-valued
model refines the JavaScript step.) -/
theorem zero_gravity_reduction (u : Uniforms) (atts : List Attractor)
    (p : Particle) (hG : u.gravityConstant = 0) (hms : 0 ≤ u.maxSpeed)
    (hsep : ∀ a ∈ atts, distSqTo p.position a ≠ 0) :
    updateParticle u atts p = updateParticle u [] p
      ∧ (updateParticle u atts p).velocity
          = dampVelocity u.velocityDamping (clampSpeed u.maxSpeed p.velocity)
      ∧ (updateParticle u atts p).position
          = wrapVec u.boundHalfExtent
              (p.position + u.timeScale • (updateParticle u atts p).velocity) := by
  have hforce : ∀ l : List Attractor, netForce u p.mass p.position l = 0 :=
    fun l => netForce_gravity_zero u p.mass p.position l hG
  have hstep : ∀ l : List Attractor, updateParticle u l p = updateParticle u [] p := by
    intro l
    unfold updateParticle
    rw [hforce l, netForce_nil]
  refine ⟨hstep atts, ?_, updateParticle_position u atts p⟩
  rw [updateParticle_velocity, codeClamp_eq_clampSpeed _ hms, hforce atts]
  have : p.velocity + u.timeScale • (0 : Vec3) = p.velocity := by
    ext <;> simp
  rw [this]
  rfl

theorem zero_gravity_reduction_witness :
    ((0 : ℝ) = 0 ∧ (0 : ℝ) ≤ 2
        ∧ (∀ a ∈ [(⟨⟨0, 0, 0⟩, ⟨0, 1, 0⟩⟩ : Attractor)],
            distSqTo (⟨1, 0, 0⟩ : Vec3) a ≠ 0)) ∧
      (updateParticle ⟨1, 1, 1, 4, 2, 0, 1 / 2, 8⟩
          [⟨⟨0, 0, 0⟩, ⟨0, 1, 0⟩⟩] ⟨⟨1, 0, 0⟩, ⟨0, 0, 1⟩, 1⟩
        = updateParticle ⟨1, 1, 1, 4, 2, 0, 1 / 2, 8⟩ [] ⟨⟨1, 0, 0⟩, ⟨0, 0, 1⟩, 1⟩
      ∧ (updateParticle ⟨1, 1, 1, 4, 2, 0, 1 / 2, 8⟩
            [⟨⟨0, 0, 0⟩, ⟨0, 1, 0⟩⟩] ⟨⟨1, 0, 0⟩, ⟨0, 0, 1⟩, 1⟩).velocity
          = dampVelocity (1 / 2) (clampSpeed 2 ⟨0, 0, 1⟩)
      ∧ (updateParticle ⟨1, 1, 1, 4, 2, 0, 1 / 2, 8⟩
            [⟨⟨0, 0, 0⟩, ⟨0, 1, 0⟩⟩] ⟨⟨1, 0, 0⟩, ⟨0, 0, 1⟩, 1⟩).position
          = wrapVec 8 ((⟨1, 0, 0⟩ : Vec3) + (1 : ℝ) •
              (updateParticle ⟨1, 1, 1, 4, 2, 0, 1 / 2, 8⟩
                [⟨⟨0, 0, 0⟩, ⟨0, 1, 0⟩⟩] ⟨⟨1, 0, 0⟩, ⟨0, 0, 1⟩, 1⟩).velocity)) :=
  ⟨⟨rfl, by norm_num, by
      intro a ha
      simp only [List.mem_singleton] at ha
      subst ha
      norm_num [distSqTo]⟩,
    zero_gravity_reduction ⟨1, 1, 1, 4, 2, 0, 1 / 2, 8⟩
      [⟨⟨0, 0, 0⟩, ⟨0, 1, 0⟩⟩] ⟨⟨1, 0, 0⟩, ⟨0, 0, 1⟩, 1⟩ rfl (by norm_num)
      (by
        intro a ha
        simp only [List.mem_singleton] at ha
        subst ha
        norm_num [distSqTo])⟩

/-- Claim C6: the per-particle sampling of `createParticles` puts the
position in the designer's slab, gives the velocity the sphere-point
form of magnitude exactly 0.05 with angles `phi ∈ [0, 2π)`,
`theta ∈ [0, π)`, puts the mass in `[0.25, 1] * particleGlobalMass`,
and `resetParticles` applies exactly the same formulas, so creation and
reset compute identical values from identical random draws. -/
theorem init_reset_agree (pgm : ℝ) (d : Draws) (hpgm : 0 ≤ pgm)
    (h1 : 0 ≤ d.r1) (h1' : d.r1 < 1) (h2 : 0 ≤ d.r2) (h2' : d.r2 < 1)
    (h3 : 0 ≤ d.r3) (h3' : d.r3 < 1) (h4 : 0 ≤ d.r4) (h4' : d.r4 < 1)
    (h5 : 0 ≤ d.r5) (h5' : d.r5 < 1) (h6 : 0 ≤ d.r6) (h6' : d.r6 < 1) :
    createParticle pgm d = resetParticle pgm d
      ∧ -2.5 ≤ (createParticle pgm d).position.x
      ∧ (createParticle pgm d).position.x ≤ 2.5
      ∧ -0.1 ≤ (createParticle pgm d).position.y
      ∧ (createParticle pgm d).position.y ≤ 0.1
      ∧ -2.5 ≤ (createParticle pgm d).position.z
      ∧ (createParticle pgm d).position.z ≤ 2.5
      ∧ 0 ≤ d.r4 * Real.pi * 2 ∧ d.r4 * Real.pi * 2 < 2 * Real.pi
      ∧ 0 ≤ d.r5 * Real.pi ∧ d.r5 * Real.pi < Real.pi
      ∧ (createParticle pgm d).velocity
          = ⟨0.05 * Real.sin (d.r4 * Real.pi * 2) * Real.sin (d.r5 * Real.pi),
              0.05 * Real.cos (d.r4 * Real.pi * 2),
              0.05 * Real.sin (d.r4 * Real.pi * 2) * Real.cos (d.r5 * Real.pi)⟩
      ∧ Vec3.norm (createParticle pgm d).velocity = 0.05
      ∧ 0.25 * pgm ≤ (createParticle pgm d).mass
      ∧ (createParticle pgm d).mass ≤ 1 * pgm := by
  have hpi := Real.pi_pos
  have hφ := Real.sin_sq_add_cos_sq (d.r4 * Real.pi * 2)
  have hθ := Real.sin_sq_add_cos_sq (d.r5 * Real.pi)
  have hvel : (createParticle pgm d).velocity
      = ⟨0.05 * Real.sin (d.r4 * Real.pi * 2) * Real.sin (d.r5 * Real.pi),
          0.05 * Real.cos (d.r4 * Real.pi * 2),
          0.05 * Real.sin (d.r4 * Real.pi * 2) * Real.cos (d.r5 * Real.pi)⟩ := rfl
  refine ⟨rfl, ?_, ?_, ?_, ?_, ?_, ?_, ?_, ?_, ?_, ?_, hvel, ?_, ?_, ?_⟩
  · show -2.5 ≤ (d.r1 - 0.5) * 5
    nlinarith
  · show (d.r1 - 0.5) * 5 ≤ 2.5
    nlinarith
  · show -0.1 ≤ (d.r2 - 0.5) * 0.2
    nlinarith
  · show (d.r2 - 0.5) * 0.2 ≤ 0.1
    nlinarith
  · show -2.5 ≤ (d.r3 - 0.5) * 5
    nlinarith
  · show (d.r3 - 0.5) * 5 ≤ 2.5
    nlinarith
  · nlinarith
  · nlinarith
  · nlinarith
  · nlinarith
  · rw [hvel]
    unfold Vec3.norm
    have hsum : 0.05 * Real.sin (d.r4 * Real.pi * 2) * Real.sin (d.r5 * Real.pi)
          * (0.05 * Real.sin (d.r4 * Real.pi * 2) * Real.sin (d.r5 * Real.pi))
        + 0.05 * Real.cos (d.r4 * Real.pi * 2)
          * (0.05 * Real.cos (d.r4 * Real.pi * 2))
        + 0.05 * Real.sin (d.r4 * Real.pi * 2) * Real.cos (d.r5 * Real.pi)
          * (0.05 * Real.sin (d.r4 * Real.pi * 2) * Real.cos (d.r5 * Real.pi))
        = 0.05 ^ 2 := by
      linear_combination
        ((0.05 : ℝ) ^ 2 * Real.sin (d.r4 * Real.pi * 2) ^ 2) * hθ
          + (0.05 : ℝ) ^ 2 * hφ
    show Real.sqrt _ = 0.05
    rw [hsum, Real.sqrt_sq (by norm_num)]
  · show 0.25 * pgm ≤ (d.r6 * 0.75 + 0.25) * pgm
    nlinarith
  · show (d.r6 * 0.75 + 0.25) * pgm ≤ 1 * pgm
    nlinarith

theorem init_reset_agree_witness :
    ((0 : ℝ) ≤ 1 ∧ (0 : ℝ) ≤ 0 ∧ (0 : ℝ) < 1) ∧
      (createParticle 1 ⟨0, 0, 0, 0, 0, 0⟩ = resetParticle 1 ⟨0, 0, 0, 0, 0, 0⟩
        ∧ -2.5 ≤ (createParticle 1 ⟨0, 0, 0, 0, 0, 0⟩).position.x
        ∧ (createParticle 1 ⟨0, 0, 0, 0, 0, 0⟩).position.x ≤ 2.5
        ∧ -0.1 ≤ (createParticle 1 ⟨0, 0, 0, 0, 0, 0⟩).position.y
        ∧ (createParticle 1 ⟨0, 0, 0, 0, 0, 0⟩).position.y ≤ 0.1
        ∧ -2.5 ≤ (createParticle 1 ⟨0, 0, 0, 0, 0, 0⟩).position.z
        ∧ (createParticle 1 ⟨0, 0, 0, 0, 0, 0⟩).position.z ≤ 2.5
        ∧ 0 ≤ (0 : ℝ) * Real.pi * 2 ∧ (0 : ℝ) * Real.pi * 2 < 2 * Real.pi
        ∧ 0 ≤ (0 : ℝ) * Real.pi ∧ (0 : ℝ) * Real.pi < Real.pi
        ∧ (createParticle 1 ⟨0, 0, 0, 0, 0, 0⟩).velocity
            = ⟨0.05 * Real.sin ((0 : ℝ) * Real.pi * 2) * Real.sin ((0 : ℝ) * Real.pi),
                0.05 * Real.cos ((0 : ℝ) * Real.pi * 2),
                0.05 * Real.sin ((0 : ℝ) * Real.pi * 2) * Real.cos ((0 : ℝ) * Real.pi)⟩
        ∧ Vec3.norm (createParticle 1 ⟨0, 0, 0, 0, 0, 0⟩).velocity = 0.05
        ∧ 0.25 * 1 ≤ (createParticle 1 ⟨0, 0, 0, 0, 0, 0⟩).mass
        ∧ (createParticle 1 ⟨0, 0, 0, 0, 0, 0⟩).mass ≤ 1 * 1) :=
  ⟨⟨by norm_num, le_refl 0, by norm_num⟩,
    init_reset_agree 1 ⟨0, 0, 0, 0, 0, 0⟩ (by norm_num) (le_refl 0) (by norm_num)
      (le_refl 0) (by norm_num) (le_refl 0) (by norm_num) (le_refl 0) (by norm_num)
      (le_refl 0) (by norm_num) (le_refl 0) (by norm_num)⟩

/-- Claim C8: a single attractor at the origin with rotation axis
`(0,1,0)`, a single particle at `(2,0,0)` with zero velocity,
`spinningStrength = 0`, positive masses, gravity constant and
`maxSpeed`, damping below 1, `dt_scale = 1`: after one step the
velocity points along `-x` (negative x component, zero y and z). -/
theorem single_attractor_pull (u : Uniforms) (m : ℝ)
    (hm : 0 < m) (haM : 0 < u.attractorMass) (hG : 0 < u.gravityConstant)
    (hsS : u.spinningStrength = 0) (hts : u.timeScale = 1)
    (hms : 0 < u.maxSpeed) (hd1 : u.velocityDamping < 1) :
    (updateParticle u [⟨⟨0, 0, 0⟩, ⟨0, 1, 0⟩⟩]
        ⟨⟨2, 0, 0⟩, ⟨0, 0, 0⟩, m⟩).velocity.x < 0
      ∧ (updateParticle u [⟨⟨0, 0, 0⟩, ⟨0, 1, 0⟩⟩]
          ⟨⟨2, 0, 0⟩, ⟨0, 0, 0⟩, m⟩).velocity.y = 0
      ∧ (updateParticle u [⟨⟨0, 0, 0⟩, ⟨0, 1, 0⟩⟩]
          ⟨⟨2, 0, 0⟩, ⟨0, 0, 0⟩, m⟩).velocity.z = 0 := by
  have hg : 0 < u.attractorMass * m * u.gravityConstant / 4 := by positivity
  have hsqrt4 : Real.sqrt 4 = 2 := by
    rw [show (4 : ℝ) = 2 ^ 2 by norm_num, Real.sqrt_sq (by norm_num)]
  have hf : netForce u m ⟨2, 0, 0⟩ [⟨⟨0, 0, 0⟩, ⟨0, 1, 0⟩⟩]
      = ⟨-(u.attractorMass * m * u.gravityConstant / 4), 0, 0⟩ := by
    unfold netForce
    simp only [List.foldl_cons, List.foldl_nil]
    unfold applyAttractor
    ext <;> simp [hsS] <;> norm_num [hsqrt4]
  have hvel := updateParticle_velocity u [⟨⟨0, 0, 0⟩, ⟨0, 1, 0⟩⟩]
    ⟨⟨2, 0, 0⟩, ⟨0, 0, 0⟩, m⟩
  have harg : (⟨⟨2, 0, 0⟩, ⟨0, 0, 0⟩, m⟩ : Particle).velocity
        + u.timeScale • netForce u (⟨⟨2, 0, 0⟩, ⟨0, 0, 0⟩, m⟩ : Particle).mass
            (⟨⟨2, 0, 0⟩, ⟨0, 0, 0⟩, m⟩ : Particle).position [⟨⟨0, 0, 0⟩, ⟨0, 1, 0⟩⟩]
      = ⟨-(u.attractorMass * m * u.gravityConstant / 4), 0, 0⟩ := by
    show (⟨0, 0, 0⟩ : Vec3) + u.timeScale • netForce u m ⟨2, 0, 0⟩
        [⟨⟨0, 0, 0⟩, ⟨0, 1, 0⟩⟩] = _
    rw [hf, hts]
    ext <;> simp
  rw [harg] at hvel
  set g := u.attractorMass * m * u.gravityConstant / 4 with hgdef
  have hclamp : (codeClamp u.maxSpeed ⟨-g, 0, 0⟩).x < 0
      ∧ (codeClamp u.maxSpeed ⟨-g, 0, 0⟩).y = 0
      ∧ (codeClamp u.maxSpeed ⟨-g, 0, 0⟩).z = 0 := by
    unfold codeClamp
    by_cases hc : -g * -g + 0 * 0 + 0 * 0 > u.maxSpeed * u.maxSpeed
    · rw [if_pos hc]
      have hgg : -g * -g + 0 * 0 + 0 * 0 = g ^ 2 := by ring
      have hsg : Real.sqrt (-g * -g + 0 * 0 + 0 * 0) = g := by
        rw [hgg, Real.sqrt_sq hg.le]
      refine ⟨?_, by simp, by simp⟩
      show -g * (u.maxSpeed / Real.sqrt (-g * -g + 0 * 0 + 0 * 0)) < 0
      rw [hsg]
      have : 0 < u.maxSpeed / g := div_pos hms hg
      nlinarith
    · rw [if_neg hc]
      exact ⟨by simpa using neg_neg_iff_pos.mpr hg, rfl, rfl⟩
  rw [hvel]
  have hdpos : 0 < 1 - u.velocityDamping := by linarith
  refine ⟨?_, ?_, ?_⟩
  · show (1 - u.velocityDamping) * (codeClamp u.maxSpeed ⟨-g, 0, 0⟩).x < 0
    exact mul_neg_of_pos_of_neg hdpos hclamp.1
  · show (1 - u.velocityDamping) * (codeClamp u.maxSpeed ⟨-g, 0, 0⟩).y = 0
    rw [hclamp.2.1, mul_zero]
  · show (1 - u.velocityDamping) * (codeClamp u.maxSpeed ⟨-g, 0, 0⟩).z = 0
    rw [hclamp.2.2, mul_zero]

theorem single_attractor_pull_witness :
    ((0 : ℝ) < 1 ∧ (0 : ℝ) < 1 ∧ (0 : ℝ) < 1) ∧
      ((updateParticle ⟨1, 1, 1, 0, 1, 1, 0, 8⟩ [⟨⟨0, 0, 0⟩, ⟨0, 1, 0⟩⟩]
          ⟨⟨2, 0, 0⟩, ⟨0, 0, 0⟩, 1⟩).velocity.x < 0
        ∧ (updateParticle ⟨1, 1, 1, 0, 1, 1, 0, 8⟩ [⟨⟨0, 0, 0⟩, ⟨0, 1, 0⟩⟩]
            ⟨⟨2, 0, 0⟩, ⟨0, 0, 0⟩, 1⟩).velocity.y = 0
        ∧ (updateParticle ⟨1, 1, 1, 0, 1, 1, 0, 8⟩ [⟨⟨0, 0, 0⟩, ⟨0, 1, 0⟩⟩]
            ⟨⟨2, 0, 0⟩, ⟨0, 0, 0⟩, 1⟩).velocity.z = 0) :=
  ⟨⟨by norm_num, by norm_num, by norm_num⟩,
    single_attractor_pull ⟨1, 1, 1, 0, 1, 1, 0, 8⟩ 1 (by norm_num) (by norm_num)
      (by norm_num) rfl rfl (by norm_num) (by norm_num)⟩

theorem wrapCoord_neg_example : wrapCoord 8 (-8.5 : ℝ) = -8.5 := by
  unfold wrapCoord jsRem jsTrunc
  have harg : (-8.5 : ℝ) + 8 = -0.5 := by norm_num
  rw [harg]
  rw [if_neg (by norm_num : ¬ (0 : ℝ) ≤ -0.5 / (2 * 8))]
  have hceil : ⌈(-0.5 : ℝ) / (2 * 8)⌉ = 0 := by
    rw [Int.ceil_eq_zero_iff, Set.mem_Ioc]
    constructor <;> norm_num
  rw [hceil]
  norm_num

/-- Claim C1 fails on the code: the box loop uses the JavaScript `%`,
whose result carries the sign of the dividend, so a coordinate whose
pre-wrap value is below `-boundHalfExtent` is left below
`-boundHalfExtent` instead of re-entering through the opposite face.
Concretely, with `boundHalfExtent = 8 > 0`, `gravityConstant = 0`, the
three default attractors, `timeScale = 1`, no damping and a particle at
`x = -7.5` moving with velocity `x = -1`, the step returns
`position.x = -8.5 ∉ [-8, 8)`. -/
theorem boundary_wrap_violation :
    (0 : ℝ) < 8
      ∧ (updateParticle ⟨10000000, 10000, 1, 4, 2, 0, 0, 8⟩
          [⟨⟨-0.5, 0.5, 0⟩, ⟨0, 1, 0⟩⟩, ⟨⟨0.5, 0, -0.5⟩, ⟨0, 1, 0⟩⟩,
            ⟨⟨0, -0.5, 0.5⟩, ⟨1 / Real.sqrt 1.25, 0, -0.5 / Real.sqrt 1.25⟩⟩]
          ⟨⟨-7.5, 0, 0⟩, ⟨-1, 0, 0⟩, 5000⟩).position.x = -8.5
      ∧ (updateParticle ⟨10000000, 10000, 1, 4, 2, 0, 0, 8⟩
          [⟨⟨-0.5, 0.5, 0⟩, ⟨0, 1, 0⟩⟩, ⟨⟨0.5, 0, -0.5⟩, ⟨0, 1, 0⟩⟩,
            ⟨⟨0, -0.5, 0.5⟩, ⟨1 / Real.sqrt 1.25, 0, -0.5 / Real.sqrt 1.25⟩⟩]
          ⟨⟨-7.5, 0, 0⟩, ⟨-1, 0, 0⟩, 5000⟩).position.x < -8 := by
  have hvel : (updateParticle ⟨10000000, 10000, 1, 4, 2, 0, 0, 8⟩
      [⟨⟨-0.5, 0.5, 0⟩, ⟨0, 1, 0⟩⟩, ⟨⟨0.5, 0, -0.5⟩, ⟨0, 1, 0⟩⟩,
        ⟨⟨0, -0.5, 0.5⟩, ⟨1 / Real.sqrt 1.25, 0, -0.5 / Real.sqrt 1.25⟩⟩]
      ⟨⟨-7.5, 0, 0⟩, ⟨-1, 0, 0⟩, 5000⟩).velocity = ⟨-1, 0, 0⟩ := by
    rw [updateParticle_velocity, netForce_gravity_zero _ _ _ _ rfl]
    ext <;> norm_num [codeClamp]
  have hx : (updateParticle ⟨10000000, 10000, 1, 4, 2, 0, 0, 8⟩
      [⟨⟨-0.5, 0.5, 0⟩, ⟨0, 1, 0⟩⟩, ⟨⟨0.5, 0, -0.5⟩, ⟨0, 1, 0⟩⟩,
        ⟨⟨0, -0.5, 0.5⟩, ⟨1 / Real.sqrt 1.25, 0, -0.5 / Real.sqrt 1.25⟩⟩]
      ⟨⟨-7.5, 0, 0⟩, ⟨-1, 0, 0⟩, 5000⟩).position.x = -8.5 := by
    rw [updateParticle_position, hvel]
    have harg : (⟨⟨-7.5, 0, 0⟩, ⟨-1, 0, 0⟩, 5000⟩ : Particle).position
        + (⟨10000000, 10000, 1, 4, 2, 0, 0, 8⟩ : Uniforms).timeScale •
          (⟨-1, 0, 0⟩ : Vec3) = ⟨-8.5, 0, 0⟩ := by
      ext <;> norm_num
    rw [harg]
    show wrapCoord 8 (-8.5 : ℝ) = -8.5
    exact wrapCoord_neg_example
  exact ⟨by norm_num, hx, by rw [hx]; norm_num⟩

namespace Js

theorem add_nan_left (x : JsNum) : JsNum.add JsNum.nan x = JsNum.nan := by
  cases x <;> rfl

theorem add_nan_right (x : JsNum) : JsNum.add x JsNum.nan = JsNum.nan := by
  cases x <;> rfl

theorem mul_nan_left (x : JsNum) : JsNum.mul JsNum.nan x = JsNum.nan := by
  cases x <;> rfl

theorem mul_nan_right (x : JsNum) : JsNum.mul x JsNum.nan = JsNum.nan := by
  cases x <;> rfl

theorem sub_nan_left (x : JsNum) : JsNum.sub JsNum.nan x = JsNum.nan := by
  cases x <;> rfl

theorem sub_nan_right (x : JsNum) : JsNum.sub x JsNum.nan = JsNum.nan := by
  cases x <;> rfl

theorem rem_nan_left (x : JsNum) : JsNum.rem JsNum.nan x = JsNum.nan := by
  cases x <;> rfl

theorem gtb_nan_left (x : JsNum) : JsNum.gtb JsNum.nan x = false := by
  cases x <;> rfl

theorem div_nan_left (x : JsNum) : JsNum.div JsNum.nan x = JsNum.nan := by
  cases x <;> rfl

theorem sqrt_nan : JsNum.sqrt JsNum.nan = JsNum.nan := rfl

theorem leb_nan_left (x : JsNum) : JsNum.leb JsNum.nan x = false := by
  cases x <;> rfl

theorem add_num (a b : ℝ) :
    JsNum.add (JsNum.num a) (JsNum.num b) = JsNum.num (a + b) := rfl

theorem sub_num (a b : ℝ) :
    JsNum.sub (JsNum.num a) (JsNum.num b) = JsNum.num (a - b) := rfl

theorem mul_num (a b : ℝ) :
    JsNum.mul (JsNum.num a) (JsNum.num b) = JsNum.num (a * b) := rfl

theorem sqrt_num (a : ℝ) :
    JsNum.sqrt (JsNum.num a)
      = if a < 0 then JsNum.nan else JsNum.num (Real.sqrt a) := rfl

theorem div_num (a b : ℝ) :
    JsNum.div (JsNum.num a) (JsNum.num b)
      = if b = 0 then
          (if a = 0 then JsNum.nan else if 0 < a then JsNum.inf else JsNum.ninf)
        else JsNum.num (a / b) := rfl

theorem mul_inf_num (b : ℝ) :
    JsNum.mul JsNum.inf (JsNum.num b)
      = if b = 0 then JsNum.nan
        else if 0 < b then JsNum.inf else JsNum.ninf := rfl

theorem div_inf_num (b : ℝ) :
    JsNum.div JsNum.inf (JsNum.num b)
      = if 0 ≤ b then JsNum.inf else JsNum.ninf := rfl

/-- Claim C2 fails on the code: the force loop has no guard for
`distSq == 0`.  For a particle placed exactly at the first default
attractor's position, with the default uniforms, the gravity strength
is a division by zero (`Infinity`), `Infinity * 0 = NaN` enters the
force accumulator, and the step writes `NaN` into every velocity and
position component of that particle instead of treating the attractor's
contribution as zero. -/
theorem coincident_attractor_nan :
    (jsUpdateParticle
        ⟨JsNum.num 10000000, JsNum.num 10000, JsNum.num (1 / 100), JsNum.num 4,
          JsNum.num 2, JsNum.num (667 / 10000000000000), JsNum.num (7 / 10),
          JsNum.num 8⟩
        [⟨⟨JsNum.num (-0.5), JsNum.num 0.5, JsNum.num 0⟩,
            ⟨JsNum.num 0, JsNum.num 1, JsNum.num 0⟩⟩,
          ⟨⟨JsNum.num 0.5, JsNum.num 0, JsNum.num (-0.5)⟩,
            ⟨JsNum.num 0, JsNum.num 1, JsNum.num 0⟩⟩,
          ⟨⟨JsNum.num 0, JsNum.num (-0.5), JsNum.num 0.5⟩,
            ⟨JsNum.num (1 / Real.sqrt 1.25), JsNum.num 0,
              JsNum.num (-0.5 / Real.sqrt 1.25)⟩⟩]
        ⟨⟨JsNum.num (-0.5), JsNum.num 0.5, JsNum.num 0⟩,
          ⟨JsNum.num 0, JsNum.num 0, JsNum.num 0⟩, JsNum.num 5000⟩).velocity.x
        = JsNum.nan
      ∧ (jsUpdateParticle
          ⟨JsNum.num 10000000, JsNum.num 10000, JsNum.num (1 / 100), JsNum.num 4,
            JsNum.num 2, JsNum.num (667 / 10000000000000), JsNum.num (7 / 10),
            JsNum.num 8⟩
          [⟨⟨JsNum.num (-0.5), JsNum.num 0.5, JsNum.num 0⟩,
              ⟨JsNum.num 0, JsNum.num 1, JsNum.num 0⟩⟩,
            ⟨⟨JsNum.num 0.5, JsNum.num 0, JsNum.num (-0.5)⟩,
              ⟨JsNum.num 0, JsNum.num 1, JsNum.num 0⟩⟩,
            ⟨⟨JsNum.num 0, JsNum.num (-0.5), JsNum.num 0.5⟩,
              ⟨JsNum.num (1 / Real.sqrt 1.25), JsNum.num 0,
                JsNum.num (-0.5 / Real.sqrt 1.25)⟩⟩]
          ⟨⟨JsNum.num (-0.5), JsNum.num 0.5, JsNum.num 0⟩,
            ⟨JsNum.num 0, JsNum.num 0, JsNum.num 0⟩, JsNum.num 5000⟩).velocity.y
          = JsNum.nan
      ∧ (jsUpdateParticle
          ⟨JsNum.num 10000000, JsNum.num 10000, JsNum.num (1 / 100), JsNum.num 4,
            JsNum.num 2, JsNum.num (667 / 10000000000000), JsNum.num (7 / 10),
            JsNum.num 8⟩
          [⟨⟨JsNum.num (-0.5), JsNum.num 0.5, JsNum.num 0⟩,
              ⟨JsNum.num 0, JsNum.num 1, JsNum.num 0⟩⟩,
            ⟨⟨JsNum.num 0.5, JsNum.num 0, JsNum.num (-0.5)⟩,
              ⟨JsNum.num 0, JsNum.num 1, JsNum.num 0⟩⟩,
            ⟨⟨JsNum.num 0, JsNum.num (-0.5), JsNum.num 0.5⟩,
              ⟨JsNum.num (1 / Real.sqrt 1.25), JsNum.num 0,
                JsNum.num (-0.5 / Real.sqrt 1.25)⟩⟩]
          ⟨⟨JsNum.num (-0.5), JsNum.num 0.5, JsNum.num 0⟩,
            ⟨JsNum.num 0, JsNum.num 0, JsNum.num 0⟩, JsNum.num 5000⟩).velocity.z
          = JsNum.nan
      ∧ (jsUpdateParticle
          ⟨JsNum.num 10000000, JsNum.num 10000, JsNum.num (1 / 100), JsNum.num 4,
            JsNum.num 2, JsNum.num (667 / 10000000000000), JsNum.num (7 / 10),
            JsNum.num 8⟩
          [⟨⟨JsNum.num (-0.5), JsNum.num 0.5, JsNum.num 0⟩,
              ⟨JsNum.num 0, JsNum.num 1, JsNum.num 0⟩⟩,
            ⟨⟨JsNum.num 0.5, JsNum.num 0, JsNum.num (-0.5)⟩,
              ⟨JsNum.num 0, JsNum.num 1, JsNum.num 0⟩⟩,
            ⟨⟨JsNum.num 0, JsNum.num (-0.5), JsNum.num 0.5⟩,
              ⟨JsNum.num (1 / Real.sqrt 1.25), JsNum.num 0,
                JsNum.num (-0.5 / Real.sqrt 1.25)⟩⟩]
          ⟨⟨JsNum.num (-0.5), JsNum.num 0.5, JsNum.num 0⟩,
            ⟨JsNum.num 0, JsNum.num 0, JsNum.num 0⟩, JsNum.num 5000⟩).position.x
          = JsNum.nan
      ∧ (jsUpdateParticle
          ⟨JsNum.num 10000000, JsNum.num 10000, JsNum.num (1 / 100), JsNum.num 4,
            JsNum.num 2, JsNum.num (667 / 10000000000000), JsNum.num (7 / 10),
            JsNum.num 8⟩
          [⟨⟨JsNum.num (-0.5), JsNum.num 0.5, JsNum.num 0⟩,
              ⟨JsNum.num 0, JsNum.num 1, JsNum.num 0⟩⟩,
            ⟨⟨JsNum.num 0.5, JsNum.num 0, JsNum.num (-0.5)⟩,
              ⟨JsNum.num 0, JsNum.num 1, JsNum.num 0⟩⟩,
            ⟨⟨JsNum.num 0, JsNum.num (-0.5), JsNum.num 0.5⟩,
              ⟨JsNum.num (1 / Real.sqrt 1.25), JsNum.num 0,
                JsNum.num (-0.5 / Real.sqrt 1.25)⟩⟩]
          ⟨⟨JsNum.num (-0.5), JsNum.num 0.5, JsNum.num 0⟩,
            ⟨JsNum.num 0, JsNum.num 0, JsNum.num 0⟩, JsNum.num 5000⟩).position.y
          = JsNum.nan
      ∧ (jsUpdateParticle
          ⟨JsNum.num 10000000, JsNum.num 10000, JsNum.num (1 / 100), JsNum.num 4,
            JsNum.num 2, JsNum.num (667 / 10000000000000), JsNum.num (7 / 10),
            JsNum.num 8⟩
          [⟨⟨JsNum.num (-0.5), JsNum.num 0.5, JsNum.num 0⟩,
              ⟨JsNum.num 0, JsNum.num 1, JsNum.num 0⟩⟩,
            ⟨⟨JsNum.num 0.5, JsNum.num 0, JsNum.num (-0.5)⟩,
              ⟨JsNum.num 0, JsNum.num 1, JsNum.num 0⟩⟩,
            ⟨⟨JsNum.num 0, JsNum.num (-0.5), JsNum.num 0.5⟩,
              ⟨JsNum.num (1 / Real.sqrt 1.25), JsNum.num 0,
                JsNum.num (-0.5 / Real.sqrt 1.25)⟩⟩]
          ⟨⟨JsNum.num (-0.5), JsNum.num 0.5, JsNum.num 0⟩,
            ⟨JsNum.num 0, JsNum.num 0, JsNum.num 0⟩, JsNum.num 5000⟩).position.z
          = JsNum.nan := by
  refine ⟨?_, ?_, ?_, ?_, ?_, ?_⟩ <;>
    norm_num [jsUpdateParticle, jsApplyAttractor, List.foldl, add_nan_left,
      add_nan_right, mul_nan_left, mul_nan_right, sub_nan_left, sub_nan_right,
      rem_nan_left, gtb_nan_left, add_num, sub_num, mul_num, sqrt_num, div_num,
      mul_inf_num, div_inf_num, Real.sqrt_zero]

theorem nan_velocity_at_coincidence :
    (jsUpdateParticle
        ⟨JsNum.num 10000000, JsNum.num 10000, JsNum.num (1 / 100), JsNum.num 4,
          JsNum.num 2, JsNum.num (667 / 10000000000000), JsNum.num (7 / 10),
          JsNum.num 8⟩
        [⟨⟨JsNum.num (-0.5), JsNum.num 0.5, JsNum.num 0⟩,
            ⟨JsNum.num 0, JsNum.num 1, JsNum.num 0⟩⟩,
          ⟨⟨JsNum.num 0.5, JsNum.num 0, JsNum.num (-0.5)⟩,
            ⟨JsNum.num 0, JsNum.num 1, JsNum.num 0⟩⟩,
          ⟨⟨JsNum.num 0, JsNum.num (-0.5), JsNum.num 0.5⟩,
            ⟨JsNum.num (1 / Real.sqrt 1.25), JsNum.num 0,
              JsNum.num (-0.5 / Real.sqrt 1.25)⟩⟩]
        ⟨⟨JsNum.num (-0.5), JsNum.num 0.5, JsNum.num 0⟩,
          ⟨JsNum.num 0, JsNum.num 0, JsNum.num 0⟩, JsNum.num 5000⟩).velocity
      = ⟨JsNum.nan, JsNum.nan, JsNum.nan⟩ := by
  norm_num [jsUpdateParticle, jsApplyAttractor, List.foldl, add_nan_left,
    add_nan_right, mul_nan_left, mul_nan_right, sub_nan_left, sub_nan_right,
    rem_nan_left, gtb_nan_left, add_num, sub_num, mul_num, sqrt_num, div_num,
    mul_inf_num, div_inf_num, Real.sqrt_zero]

/-- Claim C3's counterexample: at the coincident input (maxSpeed =
2 ≥ 0, velocityDamping = 0.7 ∈ [0,1], default uniforms and attractors,
particle of mass 5000 exactly at attractor 0), the program's post-step
velocity magnitude is NaN, so the JavaScript comparison
`|velocity| <= maxSpeed` - the claim's "is at most maxSpeed" - is
false. -/
theorem speed_bound_counterexample :
    (0 : ℝ) ≤ 2 ∧ (0 : ℝ) ≤ 7 / 10 ∧ (7 : ℝ) / 10 ≤ 1 ∧
      JsNum.leb
        (jsNorm (jsUpdateParticle
          ⟨JsNum.num 10000000, JsNum.num 10000, JsNum.num (1 / 100), JsNum.num 4,
            JsNum.num 2, JsNum.num (667 / 10000000000000), JsNum.num (7 / 10),
            JsNum.num 8⟩
          [⟨⟨JsNum.num (-0.5), JsNum.num 0.5, JsNum.num 0⟩,
              ⟨JsNum.num 0, JsNum.num 1, JsNum.num 0⟩⟩,
            ⟨⟨JsNum.num 0.5, JsNum.num 0, JsNum.num (-0.5)⟩,
              ⟨JsNum.num 0, JsNum.num 1, JsNum.num 0⟩⟩,
            ⟨⟨JsNum.num 0, JsNum.num (-0.5), JsNum.num 0.5⟩,
              ⟨JsNum.num (1 / Real.sqrt 1.25), JsNum.num 0,
                JsNum.num (-0.5 / Real.sqrt 1.25)⟩⟩]
          ⟨⟨JsNum.num (-0.5), JsNum.num 0.5, JsNum.num 0⟩,
            ⟨JsNum.num 0, JsNum.num 0, JsNum.num 0⟩,
            JsNum.num 5000⟩).velocity)
        (JsNum.num 2) = false := by
  refine ⟨by norm_num, by norm_num, by norm_num, ?_⟩
  rw [nan_velocity_at_coincidence]
  rfl

/-- Claim C10's counterexample: at the same coincident input the
program's post-step velocity magnitude is NaN, so the JavaScript
comparison of it against `(1 − velocityDamping) · maxSpeed` is
false. -/
theorem damped_speed_bound_counterexample :
    (0 : ℝ) ≤ 2 ∧ (0 : ℝ) ≤ 7 / 10 ∧ (7 : ℝ) / 10 ≤ 1 ∧
      JsNum.leb
        (jsNorm (jsUpdateParticle
          ⟨JsNum.num 10000000, JsNum.num 10000, JsNum.num (1 / 100), JsNum.num 4,
            JsNum.num 2, JsNum.num (667 / 10000000000000), JsNum.num (7 / 10),
            JsNum.num 8⟩
          [⟨⟨JsNum.num (-0.5), JsNum.num 0.5, JsNum.num 0⟩,
              ⟨JsNum.num 0, JsNum.num 1, JsNum.num 0⟩⟩,
            ⟨⟨JsNum.num 0.5, JsNum.num 0, JsNum.num (-0.5)⟩,
              ⟨JsNum.num 0, JsNum.num 1, JsNum.num 0⟩⟩,
            ⟨⟨JsNum.num 0, JsNum.num (-0.5), JsNum.num 0.5⟩,
              ⟨JsNum.num (1 / Real.sqrt 1.25), JsNum.num 0,
                JsNum.num (-0.5 / Real.sqrt 1.25)⟩⟩]
          ⟨⟨JsNum.num (-0.5), JsNum.num 0.5, JsNum.num 0⟩,
            ⟨JsNum.num 0, JsNum.num 0, JsNum.num 0⟩,
            JsNum.num 5000⟩).velocity)
        (JsNum.num ((1 - 7 / 10) * 2)) = false := by
  refine ⟨by norm_num, by norm_num, by norm_num, ?_⟩
  rw [nan_velocity_at_coincidence]
  rfl

/-- Claim C7's counterexample: with `gravityConstant = 0` the step is
not independent of the attractor configuration.  For a particle at
attractor 0's position the code computes `0 / 0 = NaN` and the
velocity x component ends as NaN, while the same particle stepped with
no attractors ends with velocity x component 0. -/
theorem zero_gravity_reduction_counterexample :
    (jsUpdateParticle
        ⟨JsNum.num 10000000, JsNum.num 10000, JsNum.num (1 / 100), JsNum.num 4,
          JsNum.num 2, JsNum.num 0, JsNum.num (7 / 10), JsNum.num 8⟩
        [⟨⟨JsNum.num (-0.5), JsNum.num 0.5, JsNum.num 0⟩,
            ⟨JsNum.num 0, JsNum.num 1, JsNum.num 0⟩⟩]
        ⟨⟨JsNum.num (-0.5), JsNum.num 0.5, JsNum.num 0⟩,
          ⟨JsNum.num 0, JsNum.num 0, JsNum.num 0⟩, JsNum.num 5000⟩).velocity.x
        = JsNum.nan
      ∧ (jsUpdateParticle
          ⟨JsNum.num 10000000, JsNum.num 10000, JsNum.num (1 / 100), JsNum.num 4,
            JsNum.num 2, JsNum.num 0, JsNum.num (7 / 10), JsNum.num 8⟩
          []
          ⟨⟨JsNum.num (-0.5), JsNum.num 0.5, JsNum.num 0⟩,
            ⟨JsNum.num 0, JsNum.num 0, JsNum.num 0⟩, JsNum.num 5000⟩).velocity.x
          = JsNum.num 0
      ∧ JsNum.nan ≠ JsNum.num 0 := by
  refine ⟨?_, ?_, ?_⟩
  · norm_num [jsUpdateParticle, jsApplyAttractor, List.foldl, add_nan_left,
      add_nan_right, mul_nan_left, mul_nan_right, sub_nan_left, sub_nan_right,
      rem_nan_left, gtb_nan_left, div_nan_left, add_num, sub_num, mul_num,
      sqrt_num, div_num, mul_inf_num, div_inf_num, Real.sqrt_zero]
  · norm_num [jsUpdateParticle, List.foldl, add_num, sub_num, mul_num,
      JsNum.gtb, sqrt_num, div_num]
  · intro h
    exact JsNum.noConfusion h

theorem gtb_num (a b : ℝ) :
    JsNum.gtb (JsNum.num a) (JsNum.num b) = decide (b < a) := rfl

theorem sqrt_num_nonneg (a : ℝ) (h : 0 ≤ a) :
    JsNum.sqrt (JsNum.num a) = JsNum.num (Real.sqrt a) := by
  rw [sqrt_num, if_neg (not_lt.mpr h)]

theorem div_num_ne (a b : ℝ) (hb : b ≠ 0) :
    JsNum.div (JsNum.num a) (JsNum.num b) = JsNum.num (a / b) := by
  rw [div_num, if_neg hb]

theorem rem_num (a b : ℝ) :
    JsNum.rem (JsNum.num a) (JsNum.num b)
      = if b = 0 then JsNum.nan else JsNum.num (jsRem a b) := rfl

theorem rem_num_ne (a b : ℝ) (hb : b ≠ 0) :
    JsNum.rem (JsNum.num a) (JsNum.num b) = JsNum.num (jsRem a b) := by
  rw [rem_num, if_neg hb]

/-- Injection of an exact real vector into JavaScript numbers. -/
def vecToJs (v : Vec3) : Vec3J :=
  ⟨JsNum.num v.x, JsNum.num v.y, JsNum.num v.z⟩

/-- Injection of an attractor into JavaScript numbers. -/
def attToJs (a : Attractor) : AttractorJ :=
  ⟨vecToJs a.position, vecToJs a.rotationAxis⟩

/-- Injection of the uniforms into JavaScript numbers. -/
def uniformsToJs (u : Uniforms) : UniformsJ :=
  ⟨JsNum.num u.attractorMass, JsNum.num u.particleGlobalMass,
    JsNum.num u.timeScale, JsNum.num u.spinningStrength, JsNum.num u.maxSpeed,
    JsNum.num u.gravityConstant, JsNum.num u.velocityDamping,
    JsNum.num u.boundHalfExtent⟩

/-- Injection of a particle into JavaScript numbers. -/
def particleToJs (p : Particle) : ParticleJ :=
  ⟨vecToJs p.position, vecToJs p.velocity, JsNum.num p.mass⟩

theorem jsApplyAttractor_toJs (u : Uniforms) (mass : ℝ) (pos f : Vec3)
    (a : Attractor) (hd : distSqTo pos a ≠ 0) :
    jsApplyAttractor (uniformsToJs u) (JsNum.num mass) (vecToJs pos)
        (vecToJs f) (attToJs a)
      = vecToJs (applyAttractor u mass pos f a) := by
  have hd0 : 0 ≤ distSqTo pos a := distSqTo_nonneg pos a
  have hdpos : 0 < distSqTo pos a := lt_of_le_of_ne hd0 (Ne.symm hd)
  have hsq : Real.sqrt (distSqTo pos a) ≠ 0 :=
    ne_of_gt (Real.sqrt_pos.mpr hdpos)
  unfold distSqTo at hd hd0 hsq
  unfold jsApplyAttractor applyAttractor
  simp only [uniformsToJs, attToJs, vecToJs]
  simp only [sub_num, mul_num, add_num]
  rw [sqrt_num_nonneg _ hd0, div_num_ne _ _ hd, div_num_ne _ _ hsq]
  simp only [mul_num, add_num, sub_num]

theorem foldl_jsApplyAttractor_toJs (u : Uniforms) (mass : ℝ) (pos : Vec3)
    (atts : List Attractor) (hsep : ∀ a ∈ atts, distSqTo pos a ≠ 0) :
    ∀ acc : Vec3,
      List.foldl (jsApplyAttractor (uniformsToJs u) (JsNum.num mass) (vecToJs pos))
          (vecToJs acc) (atts.map attToJs)
        = vecToJs (List.foldl (applyAttractor u mass pos) acc atts) := by
  induction atts with
  | nil => intro acc; rfl
  | cons a t ih =>
      intro acc
      simp only [List.map_cons, List.foldl_cons]
      rw [jsApplyAttractor_toJs u mass pos acc a (hsep a (List.mem_cons_self a t))]
      exact ih (fun b hb => hsep b (List.mem_cons_of_mem a hb)) _

/-- The JavaScript-number step refines the real-valued step: away from
particle/attractor coincidences and with a nonzero `boundHalfExtent`,
running `updateParticles`' body on JavaScript numbers agrees exactly
with the real-valued model (no `NaN` or infinity ever arises). -/
theorem jsUpdateParticle_toJs (u : Uniforms) (atts : List Attractor) (p : Particle)
    (hsep : ∀ a ∈ atts, distSqTo p.position a ≠ 0)
    (hh : u.boundHalfExtent ≠ 0) :
    jsUpdateParticle (uniformsToJs u) (atts.map attToJs) (particleToJs p)
      = particleToJs (updateParticle u atts p) := by
  have h2h : 2 * u.boundHalfExtent ≠ 0 := by
    intro hc
    exact hh (by linarith [hc])
  unfold jsUpdateParticle updateParticle netForce particleToJs wrapCoord
  rw [show (⟨JsNum.num 0, JsNum.num 0, JsNum.num 0⟩ : Vec3J)
      = vecToJs (0 : Vec3) from rfl]
  rw [foldl_jsApplyAttractor_toJs u p.mass p.position atts hsep 0]
  set F := List.foldl (applyAttractor u p.mass p.position) 0 atts with hF
  simp only [vecToJs, uniformsToJs, add_num, mul_num, gtb_num]
  set vx := p.velocity.x + F.x * u.timeScale with hvx
  set vy := p.velocity.y + F.y * u.timeScale with hvy
  set vz := p.velocity.z + F.z * u.timeScale with hvz
  have hS0 : 0 ≤ vx * vx + vy * vy + vz * vz := by
    have h1 := mul_self_nonneg vx
    have h2 := mul_self_nonneg vy
    have h3 := mul_self_nonneg vz
    linarith
  by_cases hfast : u.maxSpeed * u.maxSpeed < vx * vx + vy * vy + vz * vz
  · have hSpos : 0 < vx * vx + vy * vy + vz * vz :=
      lt_of_le_of_lt (mul_self_nonneg u.maxSpeed) hfast
    have hsq : Real.sqrt (vx * vx + vy * vy + vz * vz) ≠ 0 :=
      ne_of_gt (Real.sqrt_pos.mpr hSpos)
    rw [if_pos (by simpa using hfast), if_pos hfast]
    rw [sqrt_num_nonneg _ hS0, div_num_ne _ _ hsq]
    simp only [mul_num, sub_num, add_num]
    rw [rem_num_ne _ _ h2h, rem_num_ne _ _ h2h, rem_num_ne _ _ h2h]
    simp only [sub_num]
  · rw [if_neg (by simpa using hfast), if_neg hfast]
    simp only [mul_num, sub_num, add_num]
    rw [rem_num_ne _ _ h2h, rem_num_ne _ _ h2h, rem_num_ne _ _ h2h]
    simp only [sub_num]

end Js

end AttractorParticles
